import Mathlib

/-!
# Road Router: the `RoutePlanner` component of `src/components/LocationMap.js`

A shallow embedding of the component's state and of its handlers
(`getCoordinates`, `calculateDistanceAndTime`, `fetchRoute`, `swapLocations`,
the geolocation effect), followed by the properties proved about them.

Modelling conventions.

* A JavaScript number is an exact real number: the estimator is the haversine
  formula over `ℝ`, with `Math.sin`, `Math.cos`, `Math.sqrt`, `Math.atan2`
  and `Math.PI` read as the mathematical functions and constant.  Rounding of
  IEEE doubles is not represented, so a property whose truth turns on a
  rounding error of the last bit (whether the computed `a` can exceed `1`, for
  one) is outside this reading.
* A handler that talks to the outside world takes the outcome of that
  conversation as an argument and returns the calls it makes as a list of
  `Effect`s next to (or instead of) the new state.
-/

namespace RoadRouter

/-! ## Data model -/

/-- A coordinate `[latitude, longitude]`, in degrees. -/
abbrev Coordinate := ℝ × ℝ

/-- Line 9: `const defaultStart = [51.505, -0.09]`. -/
noncomputable def defaultStart : Coordinate := (51.505, -0.09)

/-- Line 10: `const defaultEnd = [40.7128, -74.006]`. -/
noncomputable def defaultEnd : Coordinate := (40.7128, -74.006)

/-- Lines 29-37: the own properties of the object literal `popularCities`,
in source order. -/
noncomputable def popularCities : List (String × Coordinate) :=
  [ ("New York", (40.7128, -74.006)),
    ("London", (51.5074, -0.1278)),
    ("Tokyo", (35.6895, 139.6917)),
    ("Paris", (48.8566, 2.3522)),
    ("Dubai", (25.276987, 55.296249)),
    ("Sydney", (-33.8688, 151.2093)),
    ("Mumbai", (19.076, 72.8777)) ]

/-- The property names every object literal inherits from `Object.prototype`
in a browser; each of them reads as a function or an object, hence truthy. -/
def objectPrototypeKeys : List String :=
  [ "constructor", "__defineGetter__", "__defineSetter__", "hasOwnProperty",
    "__lookupGetter__", "__lookupSetter__", "isPrototypeOf",
    "propertyIsEnumerable", "toString", "valueOf", "__proto__",
    "toLocaleString" ]

/-- What a property read `popularCities[place]` can produce besides
`undefined`: a coordinate of the table, or a member inherited from
`Object.prototype`. -/
inductive PropertyValue
  | coordinate (c : Coordinate)
  | inherited (name : String)

/-- The property read `popularCities[place]`: own properties first, then the
prototype chain; `none` is `undefined`. -/
noncomputable def popularCitiesGet (place : String) : Option PropertyValue :=
  match popularCities.lookup place with
  | some c => some (PropertyValue.coordinate c)
  | none =>
    if place ∈ objectPrototypeKeys then some (PropertyValue.inherited place)
    else none

/-- Lines 40-47: the component state held by the `useState` hooks.  A
location is `none` when the stored value is falsy. -/
structure RouteState where
  startLocation : Option Coordinate
  endLocation : Option Coordinate
  startInput : String
  endInput : String
  route : List Coordinate
  useLocationFor : String
  distance : String
  travelTime : String

/-- The state right after mounting (the initial values of lines 40-47). -/
noncomputable def initialState : RouteState :=
  { startLocation := some defaultStart
    endLocation := some defaultEnd
    startInput := ""
    endInput := ""
    route := []
    useLocationFor := ""
    distance := "..."
    travelTime := "..." }

/-- The calls a handler makes to its environment. -/
inductive Effect
  /-- The setter passed to `getCoordinates` is called with this value. -/
  | set (v : PropertyValue)
  /-- The request `fetch` sends to the geocoding service for `place`. -/
  | geocodeRequest (place : String)
  /-- The request `fetch` sends to the routing service for `start;end`. -/
  | routeRequest (start finish : Coordinate)
  /-- The call `navigator.geolocation.getCurrentPosition` for a target. -/
  | positionRequest (target : String)
  /-- The call `console.error` of a `catch` block. -/
  | logError

/-! ## Geocoding adapter -/

/-- Outcome of lines 69-70: either `fetch` or `response.json()` rejects, or
the body is an array of results with their `lat` and `lon` strings. -/
inductive GeocodeReply
  | failure
  | results (data : List (String × String))

/-- Lines 62-78.  `parseFloat` is the host function of that name; `reply` is
what the geocoding service answers in case it is asked. -/
noncomputable def getCoordinates (parseFloat : String → ℝ) (place : String)
    (reply : GeocodeReply) : List Effect :=
  if place = "" then []
  else
    match popularCitiesGet place with
    | some v => [Effect.set v]
    | none =>
      Effect.geocodeRequest place ::
        match reply with
        | GeocodeReply.failure => [Effect.logError]
        | GeocodeReply.results [] => []
        | GeocodeReply.results ((lat, lon) :: _) =>
          [Effect.set (PropertyValue.coordinate (parseFloat lat, parseFloat lon))]

/-! ## Distance and time estimator -/

/-- Reading of `Math.atan2(y, x)` over the reals: the argument of `x + y i`
(and `0` at the origin, as `Math.atan2(0, 0)`). -/
noncomputable def atan2 (y x : ℝ) : ℝ := Complex.arg ⟨x, y⟩

/-- Lines 83-87: the haversine intermediate `a`. -/
noncomputable def haversineA (start finish : Coordinate) : ℝ :=
  let lat1 := (Real.pi * start.1) / 180
  let lat2 := (Real.pi * finish.1) / 180
  let deltaLat := lat2 - lat1
  let deltaLon := (Real.pi * (finish.2 - start.2)) / 180
  Real.sin (deltaLat / 2) ^ 2
    + Real.cos lat1 * Real.cos lat2 * Real.sin (deltaLon / 2) ^ 2

/-- Lines 82-89: the distance `d`, in kilometres. -/
noncomputable def haversineD (start finish : Coordinate) : ℝ :=
  let R : ℝ := 6371
  let a := haversineA start finish
  let c := 2 * atan2 (Real.sqrt a) (Real.sqrt (1 - a))
  R * c

/-- Decimal rendering of `n` hundredths: the integer part, a point and two
digits. -/
def formatHundredths (n : ℕ) : String :=
  toString (n / 100) ++ "." ++ (if n % 100 < 10 then "0" else "")
    ++ toString (n % 100)

/-- Reading of `x.toFixed(2)` for `|x| < 10^21`: the sign, then the nearest
number of hundredths of `|x|`, the larger one at a tie. -/
noncomputable def toFixed2 (x : ℝ) : String :=
  (if x < 0 then "-" else "") ++ formatHundredths ⌊|x| * 100 + 1 / 2⌋₊

/-- Lines 80-94: the labels are set and `fetchRoute` is started, provided
both locations are truthy. -/
noncomputable def calculateDistanceAndTime (s : RouteState) :
    RouteState × List Effect :=
  match s.startLocation, s.endLocation with
  | some start, some finish =>
    let d := haversineD start finish
    ({ s with
        distance := toFixed2 d ++ " km"
        travelTime := toFixed2 (d / 50) ++ " hrs" },
      [Effect.routeRequest start finish])
  | _, _ => (s, [])

/-! ## Route-fetch adapter -/

/-- Outcome of lines 99-102: a rejection anywhere in the `try` block, or the
`routes` array, each route given by its `geometry.coordinates`, a sequence of
`[lon, lat]` points. -/
inductive RouteReply
  | failure
  | routes (candidates : List (List (ℝ × ℝ)))

/-- Lines 96-109, from the moment the reply arrives: `startLocation` and
`endLocation` are the values the closure captured, `s` is the state the
setter `setRoute` acts on. -/
def fetchRoute (startLocation endLocation : Option Coordinate)
    (reply : RouteReply) (s : RouteState) : RouteState :=
  match startLocation, endLocation with
  | some _, some _ =>
    match reply with
    | RouteReply.failure => s
    | RouteReply.routes [] => s
    | RouteReply.routes (first :: _) =>
      { s with route := first.map (fun p => (p.2, p.1)) }
  | _, _ => s

/-! ## Swap control -/

/-- Lines 111-116: the four setters are called with the values of the
current render. -/
def swapLocations (s : RouteState) : RouteState :=
  { s with
      startLocation := s.endLocation
      endLocation := s.startLocation
      startInput := s.endInput
      endInput := s.startInput }

/-! ## Geolocation adapter -/

/-- Lines 50-59, the body of the effect: `hasGeolocation` is
`"geolocation" in navigator`. -/
def geolocationEffect (hasGeolocation : Bool) (useLocationFor : String) :
    List Effect :=
  if useLocationFor ≠ "" ∧ hasGeolocation = true then
    [Effect.positionRequest useLocationFor]
  else []

/-- Lines 52-56, the success callback, closed over the `useLocationFor` of the
render that started the request. -/
def onPosition (useLocationFor : String) (coords : Coordinate)
    (s : RouteState) : RouteState :=
  let s1 := if useLocationFor = "start" then { s with startLocation := some coords } else s
  if useLocationFor = "end" then { s1 with endLocation := some coords } else s1

/-- The click handlers of lines 134, 140 and 146 followed by the commit:
`setUseLocationFor t` with the value already stored is dropped by React
(no render, no effect); otherwise the component renders again and the effect
of lines 49-60, whose dependency list is `[useLocationFor]`, runs once. -/
def setUseLocationFor (hasGeolocation : Bool) (t : String) (s : RouteState) :
    RouteState × List Effect :=
  if s.useLocationFor = t then (s, [])
  else ({ s with useLocationFor := t }, geolocationEffect hasGeolocation t)

/-- Number of device position requests among the effects. -/
def positionRequests : List Effect → ℕ
  | [] => 0
  | Effect.positionRequest _ :: rest => positionRequests rest + 1
  | _ :: rest => positionRequests rest

/-! ## Taylor polynomials used to enclose `Math.sin` and `Math.cos` -/

/-- Degree-10 Taylor polynomial of the cosine. -/
noncomputable def cosPoly (x : ℝ) : ℝ :=
  1 - x ^ 2 / 2 + x ^ 4 / 24 - x ^ 6 / 720 + x ^ 8 / 40320 - x ^ 10 / 3628800

/-- Degree-11 Taylor polynomial of the sine. -/
noncomputable def sinPoly (x : ℝ) : ℝ :=
  x - x ^ 3 / 6 + x ^ 5 / 120 - x ^ 7 / 5040 + x ^ 9 / 362880 - x ^ 11 / 39916800

/-! ## Helper lemmas -/

theorem haversineA_comm (A B : Coordinate) : haversineA A B = haversineA B A := by
  unfold haversineA
  have h1 : (Real.pi * A.1 / 180 - Real.pi * B.1 / 180) / 2
      = -((Real.pi * B.1 / 180 - Real.pi * A.1 / 180) / 2) := by ring
  have h2 : Real.pi * (A.2 - B.2) / 180 / 2 = -(Real.pi * (B.2 - A.2) / 180 / 2) := by
    ring
  simp only [h1, h2, Real.sin_neg]
  ring

theorem haversineD_comm (A B : Coordinate) : haversineD A B = haversineD B A := by
  unfold haversineD
  rw [haversineA_comm A B]

theorem haversineA_self (A : Coordinate) : haversineA A A = 0 := by
  simp [haversineA]

theorem atan2_zero_one : atan2 0 1 = 0 := by
  have h : (⟨1, 0⟩ : ℂ) = 1 := by apply Complex.ext <;> simp
  rw [atan2, h, Complex.arg_one]

theorem haversineD_self (A : Coordinate) : haversineD A A = 0 := by
  simp [haversineD, haversineA_self, atan2_zero_one]

theorem toFixed2_zero : toFixed2 0 = "0.00" := by
  have h : ⌊|(0 : ℝ)| * 100 + 1 / 2⌋₊ = 0 := by
    rw [Nat.floor_eq_zero]; norm_num
  rw [toFixed2, h, if_neg (lt_irrefl (0 : ℝ))]
  decide

/-- The haversine intermediate lies in the unit interval for all real
arguments, so that `Math.sqrt` is only ever applied to non-negative numbers in
the real reading of lines 87-88. -/
theorem haversineA_mem_unit (A B : Coordinate) :
    0 ≤ haversineA A B ∧ haversineA A B ≤ 1 := by
  unfold haversineA
  simp only
  set x := Real.pi * A.1 / 180 with hx
  set y := Real.pi * B.1 / 180 with hy
  set t := Real.sin (Real.pi * (B.2 - A.2) / 180 / 2) ^ 2 with ht
  have ht0 : 0 ≤ t := sq_nonneg _
  have ht1 : t ≤ 1 := Real.sin_sq_le_one _
  have hs : Real.sin ((y - x) / 2) ^ 2 = 1 / 2 - Real.cos (y - x) / 2 := by
    rw [Real.sin_sq_eq_half_sub, show 2 * ((y - x) / 2) = y - x by ring]
  have hm := Real.cos_sub y x
  have hp := Real.cos_add y x
  have hm1 := Real.cos_le_one (y - x)
  have hm2 := Real.neg_one_le_cos (y - x)
  have hp1 := Real.cos_le_one (y + x)
  have hp2 := Real.neg_one_le_cos (y + x)
  have key : Real.sin ((y - x) / 2) ^ 2 + Real.cos x * Real.cos y * t
      = (1 - t) * ((1 - Real.cos (y - x)) / 2) + t * ((1 + Real.cos (y + x)) / 2) := by
    rw [hs, hm, hp]; ring
  have key2 : 1 - (Real.sin ((y - x) / 2) ^ 2 + Real.cos x * Real.cos y * t)
      = (1 - t) * ((1 + Real.cos (y - x)) / 2) + t * ((1 - Real.cos (y + x)) / 2) := by
    rw [hs, hm, hp]; ring
  constructor
  · rw [key]
    have h1 : 0 ≤ (1 - t) * ((1 - Real.cos (y - x)) / 2) :=
      mul_nonneg (by linarith) (by linarith)
    have h2 : 0 ≤ t * ((1 + Real.cos (y + x)) / 2) := mul_nonneg ht0 (by linarith)
    linarith
  · have h1 : 0 ≤ (1 - t) * ((1 + Real.cos (y - x)) / 2) :=
      mul_nonneg (by linarith) (by linarith)
    have h2 : 0 ≤ t * ((1 - Real.cos (y + x)) / 2) := mul_nonneg ht0 (by linarith)
    linarith

theorem atan2_quadrant {y x : ℝ} (hy : 0 ≤ y) (hx : 0 ≤ x) :
    0 ≤ atan2 y x ∧ atan2 y x ≤ Real.pi / 2 := by
  unfold atan2
  constructor
  · rw [Complex.arg_nonneg_iff]; exact hy
  · rw [Complex.arg_le_pi_div_two_iff]; left; exact hx

/-- In the real reading the distance stays between `0` and `6371 π`, well
inside the range `|x| < 10^21` for which `toFixed2` reads `toFixed(2)`. -/
theorem haversineD_bounds (A B : Coordinate) :
    0 ≤ haversineD A B ∧ haversineD A B ≤ 6371 * Real.pi := by
  have h := atan2_quadrant (Real.sqrt_nonneg (haversineA A B))
    (Real.sqrt_nonneg (1 - haversineA A B))
  unfold haversineD
  simp only
  constructor
  · nlinarith [h.1]
  · nlinarith [h.2]

theorem lookup_of_mem_popularCities {place : String} {c : Coordinate}
    (h : (place, c) ∈ popularCities) : popularCities.lookup place = some c := by
  simp only [popularCities, List.mem_cons, Prod.mk.injEq, List.mem_singleton,
    List.not_mem_nil, or_false] at h
  rcases h with h | h | h | h | h | h | h <;> obtain ⟨rfl, rfl⟩ := h <;>
    simp [popularCities, List.lookup]

theorem ne_empty_of_mem_popularCities {place : String} {c : Coordinate}
    (h : (place, c) ∈ popularCities) : place ≠ "" := by
  simp only [popularCities, List.mem_cons, Prod.mk.injEq, List.mem_singleton,
    List.not_mem_nil, or_false] at h
  rcases h with h | h | h | h | h | h | h <;> obtain ⟨rfl, -⟩ := h <;> decide

/-- The geocoding service is asked only for a non-empty name for which the
property read `popularCities[place]` is `undefined`. -/
theorem popularCitiesGet_eq_none_of_request {parseFloat : String → ℝ}
    {place : String} {reply : GeocodeReply}
    (h : Effect.geocodeRequest place ∈ getCoordinates parseFloat place reply) :
    place ≠ "" ∧ popularCitiesGet place = none := by
  unfold getCoordinates at h
  by_cases hp : place = ""
  · simp [hp] at h
  · refine ⟨hp, ?_⟩
    cases hget : popularCitiesGet place with
    | none => rfl
    | some v => simp [hp, hget] at h

/-! ## Enclosures for the default pair -/

theorem expI_sum (x : ℝ) :
    (∑ m in Finset.range 12, ((x : ℂ) * Complex.I) ^ m / (m.factorial : ℂ))
      = ((cosPoly x : ℝ) : ℂ) + ((sinPoly x : ℝ) : ℂ) * Complex.I := by
  have h2 : Complex.I ^ 2 = -1 := Complex.I_sq
  have h3 : Complex.I ^ 3 = -Complex.I := by rw [pow_succ, h2]; ring
  have h4 : Complex.I ^ 4 = 1 := by rw [pow_succ, h3]; ring_nf; rw [h2]; ring
  have h5 : Complex.I ^ 5 = Complex.I := by rw [pow_succ, h4]; ring
  have h6 : Complex.I ^ 6 = -1 := by rw [pow_succ, h5]; ring_nf; rw [h2]
  have h7 : Complex.I ^ 7 = -Complex.I := by rw [pow_succ, h6]; ring
  have h8 : Complex.I ^ 8 = 1 := by rw [pow_succ, h7]; ring_nf; rw [h2]; ring
  have h9 : Complex.I ^ 9 = Complex.I := by rw [pow_succ, h8]; ring
  have h10 : Complex.I ^ 10 = -1 := by rw [pow_succ, h9]; ring_nf; rw [h2]
  have h11 : Complex.I ^ 11 = -Complex.I := by rw [pow_succ, h10]; ring
  simp only [Finset.sum_range_succ, Finset.sum_range_zero, mul_pow, h2, h3, h4, h5, h6, h7,
    h8, h9, h10, h11, Nat.factorial, cosPoly, sinPoly]
  push_cast
  ring

theorem expI_remainder (x : ℝ) (hx : |x| ≤ 1) :
    Complex.abs (Complex.exp (x * Complex.I)
        - ((cosPoly x : ℂ) + (sinPoly x : ℂ) * Complex.I)) ≤ 1 / 400000000 := by
  have habs : Complex.abs ((x : ℂ) * Complex.I) = |x| := by simp
  have h := Complex.exp_bound (x := (x : ℂ) * Complex.I) (by rw [habs]; exact hx)
    (n := 12) (by norm_num)
  rw [expI_sum x, habs] at h
  have hp : |x| ^ 12 ≤ 1 := pow_le_one₀ (abs_nonneg x) hx
  have hc : ((Nat.succ 12 : ℕ) : ℝ) * (((Nat.factorial 12 : ℕ) : ℝ) * ((12 : ℕ) : ℝ))⁻¹
      ≤ 1 / 400000000 := by
    norm_num [Nat.factorial]
  have hc0 : (0 : ℝ) ≤
      ((Nat.succ 12 : ℕ) : ℝ) * (((Nat.factorial 12 : ℕ) : ℝ) * ((12 : ℕ) : ℝ))⁻¹ := by
    positivity
  calc _ ≤ |x| ^ 12 * (((Nat.succ 12 : ℕ) : ℝ) * (((Nat.factorial 12 : ℕ) : ℝ) * ((12 : ℕ) : ℝ))⁻¹) := h
    _ ≤ 1 * (((Nat.succ 12 : ℕ) : ℝ) * (((Nat.factorial 12 : ℕ) : ℝ) * ((12 : ℕ) : ℝ))⁻¹) :=
        mul_le_mul_of_nonneg_right hp hc0
    _ ≤ 1 / 400000000 := by rw [one_mul]; exact hc

theorem cos_near_cosPoly (x : ℝ) (hx : |x| ≤ 1) :
    |Real.cos x - cosPoly x| ≤ 1 / 400000000 := by
  have h := expI_remainder x hx
  have hre := Complex.abs_re_le_abs (Complex.exp (x * Complex.I)
        - ((cosPoly x : ℂ) + (sinPoly x : ℂ) * Complex.I))
  have e : (Complex.exp (x * Complex.I)
        - ((cosPoly x : ℂ) + (sinPoly x : ℂ) * Complex.I)).re = Real.cos x - cosPoly x := by
    simp [Complex.exp_ofReal_mul_I_re]
  rw [e] at hre
  exact hre.trans h

theorem sin_near_sinPoly (x : ℝ) (hx : |x| ≤ 1) :
    |Real.sin x - sinPoly x| ≤ 1 / 400000000 := by
  have h := expI_remainder x hx
  have him := Complex.abs_im_le_abs (Complex.exp (x * Complex.I)
        - ((cosPoly x : ℂ) + (sinPoly x : ℂ) * Complex.I))
  have e : (Complex.exp (x * Complex.I)
        - ((cosPoly x : ℂ) + (sinPoly x : ℂ) * Complex.I)).im = Real.sin x - sinPoly x := by
    simp [Complex.exp_ofReal_mul_I_im]
  rw [e] at him
  exact him.trans h

theorem one_lt_pi_div_two : (1 : ℝ) < Real.pi / 2 := by
  have := Real.pi_gt_three
  linarith

theorem sinPoly_sub_le_sin {x q : ℝ} (hq0 : 0 ≤ q) (hq1 : q ≤ 1) (hqx : q ≤ x)
    (hx : x ≤ Real.pi / 2) : sinPoly q - 1 / 400000000 ≤ Real.sin x := by
  have h := abs_le.mp (sin_near_sinPoly q (abs_le.mpr ⟨by linarith, hq1⟩))
  have hm := Real.sin_le_sin_of_le_of_le_pi_div_two
    (by linarith [Real.pi_gt_three]) hx hqx
  linarith [h.2]

theorem sin_le_sinPoly_add {x q : ℝ} (hx0 : 0 ≤ x) (hxq : x ≤ q) (hq1 : q ≤ 1) :
    Real.sin x ≤ sinPoly q + 1 / 400000000 := by
  have h := abs_le.mp (sin_near_sinPoly q (abs_le.mpr ⟨by linarith, hq1⟩))
  have hm := Real.sin_le_sin_of_le_of_le_pi_div_two
    (by linarith [Real.pi_gt_three]) (by linarith [one_lt_pi_div_two]) hxq
  linarith [h.1]

theorem cosPoly_sub_le_cos {x q : ℝ} (hx0 : 0 ≤ x) (hxq : x ≤ q) (hq1 : q ≤ 1) :
    cosPoly q - 1 / 400000000 ≤ Real.cos x := by
  have h := abs_le.mp (cos_near_cosPoly q (abs_le.mpr ⟨by linarith, hq1⟩))
  have hm := Real.cos_le_cos_of_nonneg_of_le_pi hx0
    (by linarith [Real.pi_gt_three]) hxq
  linarith [h.2]

theorem cos_le_cosPoly_add {x q : ℝ} (hq0 : 0 ≤ q) (hq1 : q ≤ 1) (hqx : q ≤ x)
    (hx : x ≤ Real.pi) : Real.cos x ≤ cosPoly q + 1 / 400000000 := by
  have h := abs_le.mp (cos_near_cosPoly q (abs_le.mpr ⟨by linarith, hq1⟩))
  have hm := Real.cos_le_cos_of_nonneg_of_le_pi hq0 hx hqx
  linarith [h.1]

theorem pi_mul_bounds {q : ℝ} (hq : 0 ≤ q) :
    3.141592 * q ≤ Real.pi * q ∧ Real.pi * q ≤ 3.141593 * q :=
  ⟨mul_le_mul_of_nonneg_right Real.pi_gt_d6.le hq,
    mul_le_mul_of_nonneg_right Real.pi_lt_d6.le hq⟩

theorem sin_deltaLat_bounds :
    0.09404043 ≤ Real.sin (Real.pi * (10.7922 / 360)) ∧
    Real.sin (Real.pi * (10.7922 / 360)) ≤ 0.09404064 := by
  have hp := pi_mul_bounds (q := 10.7922 / 360) (by norm_num)
  constructor
  · have h := sinPoly_sub_le_sin (x := Real.pi * (10.7922 / 360)) (q := 0.0941796)
      (by norm_num) (by norm_num) (by norm_num at hp ⊢; linarith [hp.1])
      (by nlinarith [Real.pi_pos])
    have e : (0.09404043 : ℝ) ≤ sinPoly 0.0941796 - 1 / 400000000 := by
      norm_num [sinPoly]
    linarith
  · have h := sin_le_sinPoly_add (x := Real.pi * (10.7922 / 360)) (q := 0.0941798)
      (by positivity) (by norm_num at hp ⊢; linarith [hp.2]) (by norm_num)
    have e : sinPoly 0.0941798 + 1 / 400000000 ≤ (0.09404064 : ℝ) := by
      norm_num [sinPoly]
    linarith

theorem sin_deltaLon_bounds :
    0.60122928 ≤ Real.sin (Real.pi * (73.916 / 360)) ∧
    Real.sin (Real.pi * (73.916 / 360)) ≤ 0.60122953 := by
  have hp := pi_mul_bounds (q := 73.916 / 360) (by norm_num)
  constructor
  · have h := sinPoly_sub_le_sin (x := Real.pi * (73.916 / 360)) (q := 0.6450386)
      (by norm_num) (by norm_num) (by norm_num at hp ⊢; linarith [hp.1])
      (by nlinarith [Real.pi_pos])
    have e : (0.60122928 : ℝ) ≤ sinPoly 0.6450386 - 1 / 400000000 := by
      norm_num [sinPoly]
    linarith
  · have h := sin_le_sinPoly_add (x := Real.pi * (73.916 / 360)) (q := 0.6450389)
      (by positivity) (by norm_num at hp ⊢; linarith [hp.2]) (by norm_num)
    have e : sinPoly 0.6450389 + 1 / 400000000 ≤ (0.60122953 : ℝ) := by
      norm_num [sinPoly]
    linarith

theorem cos_lat1_bounds :
    0.6224462 ≤ Real.cos (Real.pi * (51.505 / 180)) ∧
    Real.cos (Real.pi * (51.505 / 180)) ≤ 0.62244653 := by
  have hp := pi_mul_bounds (q := 51.505 / 180) (by norm_num)
  constructor
  · have h := cosPoly_sub_le_cos (x := Real.pi * (51.505 / 180)) (q := 0.898932)
      (by positivity) (by norm_num at hp ⊢; linarith [hp.2]) (by norm_num)
    have e : (0.6224462 : ℝ) ≤ cosPoly 0.898932 - 1 / 400000000 := by
      norm_num [cosPoly]
    linarith
  · have h := cos_le_cosPoly_add (x := Real.pi * (51.505 / 180)) (q := 0.8989316)
      (by norm_num) (by norm_num) (by norm_num at hp ⊢; linarith [hp.1])
      (by nlinarith [Real.pi_pos])
    have e : cosPoly 0.8989316 + 1 / 400000000 ≤ (0.62244653 : ℝ) := by
      norm_num [cosPoly]
    linarith

theorem cos_lat2_bounds :
    0.75798857 ≤ Real.cos (Real.pi * (40.7128 / 180)) ∧
    Real.cos (Real.pi * (40.7128 / 180)) ≤ 0.75798878 := by
  have hp := pi_mul_bounds (q := 40.7128 / 180) (by norm_num)
  constructor
  · have h := cosPoly_sub_le_cos (x := Real.pi * (40.7128 / 180)) (q := 0.7105725)
      (by positivity) (by norm_num at hp ⊢; linarith [hp.2]) (by norm_num)
    have e : (0.75798857 : ℝ) ≤ cosPoly 0.7105725 - 1 / 400000000 := by
      norm_num [cosPoly]
    linarith
  · have h := cos_le_cosPoly_add (x := Real.pi * (40.7128 / 180)) (q := 0.7105722)
      (by norm_num) (by norm_num) (by norm_num at hp ⊢; linarith [hp.1])
      (by nlinarith [Real.pi_pos])
    have e : cosPoly 0.7105722 + 1 / 400000000 ≤ (0.75798878 : ℝ) := by
      norm_num [cosPoly]
    linarith

theorem haversine_sum_bounds {s1 c1 c2 s2 : ℝ}
    (hs1 : 0.09404043 ≤ s1 ∧ s1 ≤ 0.09404064)
    (hc1 : 0.6224462 ≤ c1 ∧ c1 ≤ 0.62244653)
    (hc2 : 0.75798857 ≤ c2 ∧ c2 ≤ 0.75798878)
    (hs2 : 0.60122928 ≤ s2 ∧ s2 ≤ 0.60122953) :
    0.1793908 ≤ s1 ^ 2 + c1 * c2 * s2 ^ 2 ∧ s1 ^ 2 + c1 * c2 * s2 ^ 2 ≤ 0.1793912 := by
  obtain ⟨hs1l, hs1u⟩ := hs1
  obtain ⟨hc1l, hc1u⟩ := hc1
  obtain ⟨hc2l, hc2u⟩ := hc2
  obtain ⟨hs2l, hs2u⟩ := hs2
  have p1 : (0 : ℝ) ≤ s1 := by linarith
  have p2 : (0 : ℝ) ≤ c1 := by linarith
  have p3 : (0 : ℝ) ≤ c2 := by linarith
  have p4 : (0 : ℝ) ≤ s2 := by linarith
  constructor
  · calc (0.1793908 : ℝ)
        ≤ 0.09404043 ^ 2 + 0.6224462 * 0.75798857 * 0.60122928 ^ 2 := by norm_num
      _ ≤ s1 ^ 2 + c1 * c2 * s2 ^ 2 := by gcongr
  · calc s1 ^ 2 + c1 * c2 * s2 ^ 2
        ≤ 0.09404064 ^ 2 + 0.62244653 * 0.75798878 * 0.60122953 ^ 2 := by gcongr
      _ ≤ 0.1793912 := by norm_num

theorem haversineA_default :
    haversineA defaultStart defaultEnd
      = Real.sin (Real.pi * (10.7922 / 360)) ^ 2
        + Real.cos (Real.pi * (51.505 / 180)) * Real.cos (Real.pi * (40.7128 / 180))
          * Real.sin (Real.pi * (73.916 / 360)) ^ 2 := by
  unfold haversineA defaultStart defaultEnd
  simp only
  have h1 : (Real.pi * 40.7128 / 180 - Real.pi * 51.505 / 180) / 2
      = -(Real.pi * (10.7922 / 360)) := by ring
  have h2 : Real.pi * (-74.006 - -0.09) / 180 / 2 = -(Real.pi * (73.916 / 360)) := by
    ring
  have h3 : Real.pi * 51.505 / 180 = Real.pi * (51.505 / 180) := by ring
  have h4 : Real.pi * 40.7128 / 180 = Real.pi * (40.7128 / 180) := by ring
  rw [h1, h2, h3, h4, Real.sin_neg, Real.sin_neg, neg_sq, neg_sq]

theorem haversineA_default_bounds :
    0.1793908 ≤ haversineA defaultStart defaultEnd ∧
    haversineA defaultStart defaultEnd ≤ 0.1793912 := by
  rw [haversineA_default]
  exact haversine_sum_bounds sin_deltaLat_bounds cos_lat1_bounds cos_lat2_bounds
    sin_deltaLon_bounds

theorem sin_atan2_sqrt {a : ℝ} (h0 : 0 ≤ a) (h1 : a ≤ 1) :
    Real.sin (atan2 (Real.sqrt a) (Real.sqrt (1 - a))) = Real.sqrt a := by
  unfold atan2
  rw [Complex.sin_arg]
  have habs : Complex.abs ⟨Real.sqrt (1 - a), Real.sqrt a⟩ = 1 := by
    rw [Complex.abs_apply, Complex.normSq_mk, ← sq, ← sq,
      Real.sq_sqrt (by linarith), Real.sq_sqrt h0]
    simp
  rw [habs]
  simp

/-- The half-angle `c / 2` of the default pair lies between `0.437294` and
`0.437372`. -/
theorem default_half_angle_bounds :
    0.437294 ≤ atan2 (Real.sqrt (haversineA defaultStart defaultEnd))
        (Real.sqrt (1 - haversineA defaultStart defaultEnd)) ∧
    atan2 (Real.sqrt (haversineA defaultStart defaultEnd))
        (Real.sqrt (1 - haversineA defaultStart defaultEnd)) < 0.437372 := by
  set a := haversineA defaultStart defaultEnd with ha
  obtain ⟨hal, hau⟩ := haversineA_default_bounds
  rw [← ha] at hal hau
  have h01 := haversineA_mem_unit defaultStart defaultEnd
  rw [← ha] at h01
  set θ := atan2 (Real.sqrt a) (Real.sqrt (1 - a)) with hθ
  have hq := atan2_quadrant (Real.sqrt_nonneg a) (Real.sqrt_nonneg (1 - a))
  rw [← hθ] at hq
  have hsin : Real.sin θ = Real.sqrt a := sin_atan2_sqrt h01.1 h01.2
  have hsq : Real.sin θ ^ 2 = a := by rw [hsin, Real.sq_sqrt h01.1]
  have hs0 : 0 ≤ Real.sin θ := by rw [hsin]; exact Real.sqrt_nonneg a
  constructor
  · by_contra hlt
    push_neg at hlt
    have hU := sin_le_sinPoly_add (x := θ) (q := 0.437294) hq.1 hlt.le (by norm_num)
    have e : sinPoly 0.437294 + 1 / 400000000 ≤ (0.42348966 : ℝ) := by
      norm_num [sinPoly]
    have h2 : Real.sin θ ^ 2 ≤ 0.42348966 ^ 2 :=
      pow_le_pow_left₀ hs0 (by linarith) 2
    have e2 : (0.42348966 : ℝ) ^ 2 < 0.1793908 := by norm_num
    linarith
  · by_contra hge
    push_neg at hge
    have hL := sinPoly_sub_le_sin (x := θ) (q := 0.437372) (by norm_num) (by norm_num)
      hge hq.2
    have e : (0.4235603 : ℝ) ≤ sinPoly 0.437372 - 1 / 400000000 := by
      norm_num [sinPoly]
    have h2 : (0.4235603 : ℝ) ^ 2 ≤ Real.sin θ ^ 2 :=
      pow_le_pow_left₀ (by norm_num) (by linarith) 2
    have e2 : (0.1793912 : ℝ) < 0.4235603 ^ 2 := by norm_num
    linarith

theorem haversineD_default_bounds :
    5572 ≤ haversineD defaultStart defaultEnd ∧
    haversineD defaultStart defaultEnd < 5573 := by
  obtain ⟨hl, hu⟩ := default_half_angle_bounds
  unfold haversineD
  simp only
  constructor
  · linarith
  · linarith

/-! ## The claims -/

/-- C1: for all coordinates `A` and `B` the distance computed with start `A`
and end `B` equals the one computed with start `B` and end `A`, and so do the
distance and time labels that `calculateDistanceAndTime` stores. -/
theorem calculateDistanceAndTime_symmetric (s : RouteState) (A B : Coordinate) :
    haversineD A B = haversineD B A ∧
    (calculateDistanceAndTime
        { s with startLocation := some A, endLocation := some B }).1.distance
      = (calculateDistanceAndTime
        { s with startLocation := some B, endLocation := some A }).1.distance ∧
    (calculateDistanceAndTime
        { s with startLocation := some A, endLocation := some B }).1.travelTime
      = (calculateDistanceAndTime
        { s with startLocation := some B, endLocation := some A }).1.travelTime := by
  refine ⟨haversineD_comm A B, ?_, ?_⟩ <;>
    simp [calculateDistanceAndTime, haversineD_comm A B]

/-- C2: with start and end both equal to `A`, the distance is exactly `0`, the
time is exactly `0`, and the labels stored by `calculateDistanceAndTime` are
`"0.00 km"` and `"0.00 hrs"`. -/
theorem calculateDistanceAndTime_same_point (s : RouteState) (A : Coordinate) :
    haversineD A A = 0 ∧ haversineD A A / 50 = 0 ∧
    (calculateDistanceAndTime
        { s with startLocation := some A, endLocation := some A }).1.distance
      = "0.00 km" ∧
    (calculateDistanceAndTime
        { s with startLocation := some A, endLocation := some A }).1.travelTime
      = "0.00 hrs" := by
  refine ⟨haversineD_self A, by simp [haversineD_self], ?_, ?_⟩
  · simp only [calculateDistanceAndTime, haversineD_self, toFixed2_zero]
    decide
  · simp only [calculateDistanceAndTime, haversineD_self, zero_div, toFixed2_zero]
    decide

/-- C4: `swapLocations` exchanges start with end and startText with endText
in one step, leaves the rest of the state alone, and applying it twice gives
back the original state. -/
theorem swapLocations_exchange_involutive (s : RouteState) :
    (swapLocations s).startLocation = s.endLocation ∧
    (swapLocations s).endLocation = s.startLocation ∧
    (swapLocations s).startInput = s.endInput ∧
    (swapLocations s).endInput = s.startInput ∧
    swapLocations (swapLocations s) = s := by
  refine ⟨rfl, rfl, rfl, rfl, rfl⟩

/-- C5: for a name that is a key of `popularCities`, `getCoordinates` calls
the setter exactly once, with the coordinate of the table, and makes no other
call (in particular no request to the geocoding service), whatever the
service would reply; `"London"` resolves to `(51.5074, -0.1278)`. -/
theorem getCoordinates_table_hit (parseFloat : String → ℝ) (place : String)
    (c : Coordinate) (reply : GeocodeReply) (h : (place, c) ∈ popularCities) :
    getCoordinates parseFloat place reply
      = [Effect.set (PropertyValue.coordinate c)] ∧
    getCoordinates parseFloat "London" reply
      = [Effect.set (PropertyValue.coordinate (51.5074, -0.1278))] := by
  constructor
  · simp [getCoordinates, popularCitiesGet, lookup_of_mem_popularCities h,
      ne_empty_of_mem_popularCities h]
  · simp [getCoordinates, popularCitiesGet, popularCities, List.lookup]

theorem getCoordinates_table_hit_witness :
    (("Tokyo", ((35.6895, 139.6917) : Coordinate)) ∈ popularCities) ∧
    (getCoordinates (fun _ => 0) "Tokyo" GeocodeReply.failure
      = [Effect.set (PropertyValue.coordinate (35.6895, 139.6917))] ∧
    getCoordinates (fun _ => 0) "London" GeocodeReply.failure
      = [Effect.set (PropertyValue.coordinate (51.5074, -0.1278))]) :=
  ⟨by simp [popularCities],
    getCoordinates_table_hit (fun _ => 0) "Tokyo" (35.6895, 139.6917)
      GeocodeReply.failure (by simp [popularCities])⟩

/-- C6: for every place name outside the city table, when the remote
geocoding call that `getCoordinates` makes fails (`fetch` or `response.json()`
rejects) or returns zero results, the setter is never called, so the targeted
coordinate stays as it was: the effects are the request alone, followed by the
error log in the case of a failure. -/
theorem getCoordinates_failed_lookup_no_set (parseFloat : String → ℝ)
    (place : String) (reply : GeocodeReply)
    (_hkey : popularCities.lookup place = none)
    (hcall : Effect.geocodeRequest place ∈ getCoordinates parseFloat place reply)
    (hfail : reply = GeocodeReply.failure ∨ reply = GeocodeReply.results []) :
    (∀ v : PropertyValue, Effect.set v ∉ getCoordinates parseFloat place reply) ∧
    (getCoordinates parseFloat place reply
        = [Effect.geocodeRequest place, Effect.logError] ∨
      getCoordinates parseFloat place reply = [Effect.geocodeRequest place]) := by
  obtain ⟨hp, hget⟩ := popularCitiesGet_eq_none_of_request hcall
  rcases hfail with rfl | rfl <;> simp [getCoordinates, hp, hget]

theorem getCoordinates_failed_lookup_no_set_witness :
    popularCities.lookup "Berlin" = none ∧
    Effect.geocodeRequest "Berlin"
      ∈ getCoordinates (fun _ => 0) "Berlin" GeocodeReply.failure ∧
    (GeocodeReply.failure = GeocodeReply.failure
      ∨ GeocodeReply.failure = GeocodeReply.results []) ∧
    ((∀ v : PropertyValue,
        Effect.set v ∉ getCoordinates (fun _ => 0) "Berlin" GeocodeReply.failure) ∧
      (getCoordinates (fun _ => 0) "Berlin" GeocodeReply.failure
          = [Effect.geocodeRequest "Berlin", Effect.logError] ∨
        getCoordinates (fun _ => 0) "Berlin" GeocodeReply.failure
          = [Effect.geocodeRequest "Berlin"])) :=
  ⟨by simp [popularCities, List.lookup],
    by simp [getCoordinates, popularCitiesGet, popularCities, List.lookup,
      objectPrototypeKeys],
    Or.inl rfl,
    getCoordinates_failed_lookup_no_set (fun _ => 0) "Berlin" GeocodeReply.failure
      (by simp [popularCities, List.lookup])
      (by simp [getCoordinates, popularCitiesGet, popularCities, List.lookup,
        objectPrototypeKeys])
      (Or.inl rfl)⟩

/-- C7: when the route fetch fails, or the response has no route candidate,
`fetchRoute` leaves the state, and so the stored path, exactly as it was, for
every start, end and stored path. -/
theorem fetchRoute_failure_keeps_path (startLocation endLocation : Option Coordinate)
    (s : RouteState) :
    fetchRoute startLocation endLocation RouteReply.failure s = s ∧
    fetchRoute startLocation endLocation (RouteReply.routes []) s = s ∧
    (fetchRoute startLocation endLocation RouteReply.failure s).route = s.route ∧
    (fetchRoute startLocation endLocation (RouteReply.routes []) s).route = s.route := by
  cases startLocation <;> cases endLocation <;> simp [fetchRoute]

/-- C8: on a response with at least one candidate, `fetchRoute` replaces the
stored path by the geometry of the first candidate with every `[lon, lat]`
point turned into `[lat, lon]`: same length, same order, the `i`-th point is
the flip of the `i`-th point of the geometry, and neither the previous path
nor the other candidates play a part. -/
theorem fetchRoute_success_replaces_path (start finish : Coordinate)
    (first : List (ℝ × ℝ)) (others : List (List (ℝ × ℝ))) (s : RouteState) :
    (fetchRoute (some start) (some finish) (RouteReply.routes (first :: others)) s).route
      = first.map (fun p => (p.2, p.1)) ∧
    (fetchRoute (some start) (some finish)
        (RouteReply.routes (first :: others)) s).route.length = first.length ∧
    ∀ i : ℕ,
      (fetchRoute (some start) (some finish)
          (RouteReply.routes (first :: others)) s).route[i]?
        = first[i]?.map (fun p => (p.2, p.1)) := by
  simp [fetchRoute]

/-- C9 as stated fails: with `"start"` already the active target, on a device
that has geolocation, setting the target to `"start"` again issues no position
request; and on a device without geolocation, setting the target issues none
either. -/
theorem setUseLocationFor_same_target_no_request :
    positionRequests
        (setUseLocationFor true "start"
          { initialState with useLocationFor := "start" }).2 = 0 ∧
    positionRequests (setUseLocationFor false "start" initialState).2 = 0 := by
  constructor <;>
    simp [setUseLocationFor, geolocationEffect, positionRequests, initialState]

/-- C9 as amended: on a device that has geolocation, setting the target to
`t` in `{start, end}` issues exactly one position request when `t` is not the
active target and none when it is; after a Clear, setting `t` issues one
request again, whatever was resolved before; on a device without geolocation
no request is issued. -/
theorem setUseLocationFor_position_requests (s : RouteState) (t : String)
    (ht : t = "start" ∨ t = "end") :
    positionRequests (setUseLocationFor true t s).2
      = (if s.useLocationFor = t then 0 else 1) ∧
    positionRequests
        (setUseLocationFor true t (setUseLocationFor true "" s).1).2 = 1 ∧
    positionRequests (setUseLocationFor false t s).2 = 0 := by
  have hne : t ≠ "" := by rcases ht with rfl | rfl <;> decide
  have hne2 : ¬ ("" = t) := fun h => hne h.symm
  refine ⟨?_, ?_, ?_⟩
  · by_cases h : s.useLocationFor = t <;>
      simp [setUseLocationFor, geolocationEffect, positionRequests, h, hne]
  · by_cases h : s.useLocationFor = "" <;>
      simp [setUseLocationFor, geolocationEffect, positionRequests, h, hne, hne2]
  · by_cases h : s.useLocationFor = t <;>
      simp [setUseLocationFor, geolocationEffect, positionRequests, h]

theorem setUseLocationFor_position_requests_witness :
    ("end" = "start" ∨ "end" = "end") ∧
    (positionRequests (setUseLocationFor true "end" initialState).2
      = (if initialState.useLocationFor = "end" then 0 else 1) ∧
    positionRequests
        (setUseLocationFor true "end" (setUseLocationFor true "" initialState).1).2 = 1 ∧
    positionRequests (setUseLocationFor false "end" initialState).2 = 0) :=
  ⟨by decide, setUseLocationFor_position_requests initialState "end" (by decide)⟩

/-- C3 as stated fails: for the default start and end the distance computed by
`calculateDistanceAndTime` is not in `[5570, 5571)`. -/
theorem default_distance_not_5570 :
    ¬ (5570 ≤ haversineD defaultStart defaultEnd ∧
        haversineD defaultStart defaultEnd < 5571) := by
  intro h
  linarith [haversineD_default_bounds.1, h.2]

/-- C3 as amended: for the default start `(51.505, -0.09)` and end
`(40.7128, -74.006)` the haversine distance with `R = 6371` is at least `5572`
and less than `5573`, and the time put on the label is that distance divided
by `50`. -/
theorem default_distance_5572 :
    5572 ≤ haversineD defaultStart defaultEnd ∧
    haversineD defaultStart defaultEnd < 5573 ∧
    (calculateDistanceAndTime initialState).1.distance
      = toFixed2 (haversineD defaultStart defaultEnd) ++ " km" ∧
    (calculateDistanceAndTime initialState).1.travelTime
      = toFixed2 (haversineD defaultStart defaultEnd / 50) ++ " hrs" :=
  ⟨haversineD_default_bounds.1, haversineD_default_bounds.2, rfl, rfl⟩

end RoadRouter
